import Mathlib

/-!
Verification of the safe winapi wrapper layer (ffi.rs).

The foreign facility (SetupDi* calls, ReadFile/WriteFile, registry
notification, event objects) is modelled by explicit oracle values: each
wrapper function takes the outcomes the facility would produce and is a
direct translation of the Rust control flow.  Functions that manage
resources additionally return the list of facility calls they performed,
so that properties such as "released exactly once" or "the event handle
is never closed" are statable.
-/

/-- Model of std io Error: a platform error carries its status code, a
text-decoding failure and the registry-wait timeout are distinct
constructors, mirroring ErrorKind Other vs ErrorKind TimedOut vs raw os
errors in the Rust code. -/
inductive IoError where
  | osError (code : Nat)
  | decodeError (msg : String)
  | timedOut (msg : String)
deriving DecidableEq, Repr

def ERROR_INSUFFICIENT_BUFFER : Nat := 122

def ERROR_IO_PENDING : Nat := 997

def ERROR_NO_MORE_ITEMS : Nat := 259

def WAIT_OBJECT_0 : Nat := 0

def WAIT_TIMEOUT : Nat := 258

def MAX_CLASS_NAME_LEN : Nat := 32

/-- UTF-16 decoding as performed by Rust String.from_utf16: code units
below the surrogate range or at or above 0xE000 decode directly; a high
surrogate must be followed by a low surrogate; anything else fails. -/
def utf16Decode : List Nat → Option (List Char)
  | [] => some []
  | w :: rest =>
    if w < 0xD800 ∨ 0xE000 ≤ w then
      match utf16Decode rest with
      | some cs => some (Char.ofNat w :: cs)
      | none => none
    else if w < 0xDC00 then
      match rest with
      | [] => none
      | lo :: rest2 =>
        if 0xDC00 ≤ lo ∧ lo < 0xE000 then
          match utf16Decode rest2 with
          | some cs => some (Char.ofNat (0x10000 + (w - 0xD800) * 0x400 + (lo - 0xDC00)) :: cs)
          | none => none
        else none
    else none

/-- PCWSTR to_string: read u16 code units up to the first null terminator,
then decode them as UTF-16; a decoding failure is mapped (as in the Rust
map_err closures) to an ErrorKind Other error, distinct from os errors. -/
def pcwstrDecode (ws : List Nat) : Except IoError String :=
  match utf16Decode (ws.takeWhile (fun w => w != 0)) with
  | some cs => Except.ok (String.mk cs)
  | none => Except.error (IoError.decodeError "invalid utf-16")

/-- Pair up little-endian bytes into u16 code units, as the cast of the
byte buffer pointer to a u16 pointer does in get_device_registry_property. -/
def bytesToWords : List Nat → List Nat
  | b0 :: b1 :: rest => ((b0 % 256) + 256 * (b1 % 256)) :: bytesToWords rest
  | _ => []

/-- Contents of a zero-initialized byte buffer of the given capacity after
the facility wrote the given data into its prefix (vec bang 0 semantics). -/
def fillBytes (capacity : Nat) (data : List Nat) : List Nat :=
  data.take capacity ++ List.replicate (capacity - data.length) 0

/-- Contents of a zero-initialized u16 buffer of the given capacity after
the facility wrote the given code units into its prefix. -/
def fillWords (capacity : Nat) (data : List Nat) : List Nat :=
  data.take capacity ++ List.replicate (capacity - data.length) 0

/-- Oracle for the two SetupDiGetDeviceRegistryPropertyW calls made by
get_device_registry_property: the required size reported through the out
parameter of the first, null-buffer call, the status of that first call,
and the outcome of the second call as a function of the byte capacity of
the buffer passed to it (the bytes written, or a status code). -/
structure RegPropFacility where
  requiredSize : Nat
  probe : Except Nat Unit
  fetch : Nat → Except Nat (List Nat)

/-- Second phase of get_device_registry_property: allocate requiredSize
bytes, fetch into them, reinterpret as u16 and decode up to the null. -/
def regPropertyFetch (f : RegPropFacility) : Except IoError String :=
  match f.fetch f.requiredSize with
  | Except.error e => Except.error (IoError.osError e)
  | Except.ok written => pcwstrDecode (bytesToWords (fillBytes f.requiredSize written))

/-- get_device_registry_property: probe with a null buffer; an
insufficient-buffer status is absorbed, any other first-call error
returns immediately; then allocate exactly requiredSize bytes and fetch. -/
def get_device_registry_property (f : RegPropFacility) : Except IoError String :=
  match f.probe with
  | Except.ok _ => regPropertyFetch f
  | Except.error e =>
    if e = ERROR_INSUFFICIENT_BUFFER then regPropertyFetch f
    else Except.error (IoError.osError e)

example : get_device_registry_property
    { requiredSize := 6, probe := Except.error ERROR_INSUFFICIENT_BUFFER,
      fetch := fun _ => Except.ok [72, 0, 105, 0, 0, 0] } = Except.ok "Hi" := by rfl

/-- The fixed-size device record filled in by the facility; fields other
than cbSize are opaque to this layer. -/
structure SP_DEVINFO_DATA where
  cbSize : Nat
  ClassGuid : Nat
  DevInst : Nat
  Reserved : Nat
deriving DecidableEq, Repr

/-- The fixed-size driver record filled in by the facility; fields are
opaque to this layer. -/
structure SP_DRVINFO_DATA_V2_W where
  cbSize : Nat
  DriverType : Nat
  Reserved : Nat
  Description : List Nat
  MfgName : List Nat
  ProviderName : List Nat
  DriverDate : Nat
  DriverVersion : Nat
deriving DecidableEq, Repr

/-- One call into the foreign facility, recorded in a trace.  Handles are
modelled as naturals. -/
inductive FacilityCall where
  | enumDeviceInfo (devinfo : Nat) (member_index : Nat)
  | enumDriverInfo (devinfo : Nat) (driver_type : Nat) (member_index : Nat)
  | destroyDeviceInfoList (devinfo : Nat)
  | createEvent (event : Nat)
  | readFileIssue (handle : Nat)
  | writeFileIssue (handle : Nat)
  | getOverlappedResult (handle : Nat)
  | closeHandle (handle : Nat)
deriving DecidableEq, Repr

def isCreateEvent : FacilityCall → Bool
  | FacilityCall.createEvent _ => true
  | _ => false

def isCloseHandle : FacilityCall → Bool
  | FacilityCall.closeHandle _ => true
  | _ => false

def isDestroyDeviceInfoList : FacilityCall → Bool
  | FacilityCall.destroyDeviceInfoList _ => true
  | _ => false

/-- enum_device_info: one SetupDiEnumDeviceInfo call at member_index; a
no-more-items status becomes the end-of-sequence None, success becomes the
produced record, any other status becomes an error item.  The second
component is the trace of facility calls made: exactly one. -/
def enum_device_info (fac : Nat → Except Nat SP_DEVINFO_DATA) (devinfo : Nat)
    (member_index : Nat) :
    Option (Except IoError SP_DEVINFO_DATA) × List FacilityCall :=
  let calls := [FacilityCall.enumDeviceInfo devinfo member_index]
  match fac member_index with
  | Except.ok d => (some (Except.ok d), calls)
  | Except.error e =>
    if e = ERROR_NO_MORE_ITEMS then (none, calls)
    else (some (Except.error (IoError.osError e)), calls)

/-- enum_driver_info: one SetupDiEnumDriverInfoW call at member_index with
the given driver type; sentinel and error mapping as for devices. -/
def enum_driver_info (fac : Nat → Except Nat SP_DRVINFO_DATA_V2_W) (devinfo : Nat)
    (driver_type : Nat) (member_index : Nat) :
    Option (Except IoError SP_DRVINFO_DATA_V2_W) × List FacilityCall :=
  let calls := [FacilityCall.enumDriverInfo devinfo driver_type member_index]
  match fac member_index with
  | Except.ok d => (some (Except.ok d), calls)
  | Except.error e =>
    if e = ERROR_NO_MORE_ITEMS then (none, calls)
    else (some (Except.error (IoError.osError e)), calls)

/-- destroy_device_info_list: one SetupDiDestroyDeviceInfoList call; a
facility failure becomes an os error. -/
def destroy_device_info_list (devinfo : Nat) (fac : Except Nat Unit) :
    Except IoError Unit × List FacilityCall :=
  (match fac with
   | Except.ok _ => Except.ok ()
   | Except.error e => Except.error (IoError.osError e),
   [FacilityCall.destroyDeviceInfoList devinfo])

/-- Whether a Rust fn returned normally or panicked or aborted. -/
inductive DropOutcome where
  | returned
  | panicked
deriving DecidableEq, Repr

/-- Wrapper around HDEVINFO for freeing it on drop. -/
structure DeviceInfo where
  handle : Nat
deriving DecidableEq, Repr

def DeviceInfo.new (hdeviceinfo : Nat) : DeviceInfo :=
  { handle := hdeviceinfo }

/-- The iterator over device records: the borrowed set handle and a
zero-based cursor. -/
structure DeviceInfoIter where
  handle : Nat
  current : Nat
deriving DecidableEq, Repr

def DeviceInfoIter.new (handle : Nat) : DeviceInfoIter :=
  { handle := handle, current := 0 }

def DeviceInfo.device_iter (d : DeviceInfo) : DeviceInfoIter :=
  DeviceInfoIter.new d.handle

/-- Iterator next: one enum_device_info call at the current cursor, then
the cursor is incremented whatever the outcome was.  Returns the item, the
advanced iterator and the trace of facility calls. -/
def DeviceInfoIter.next (it : DeviceInfoIter) (fac : Nat → Except Nat SP_DEVINFO_DATA) :
    Option (Except IoError SP_DEVINFO_DATA) × DeviceInfoIter × List FacilityCall :=
  let r := enum_device_info fac it.handle it.current
  (r.1, { handle := it.handle, current := it.current + 1 }, r.2)

/-- Drop for DeviceInfo: the Rust body is a single let-underscore binding
of destroy_device_info_list, so the release result is discarded, nothing
is propagated and nothing can panic; exactly the destroy call is made. -/
def DeviceInfo.drop (d : DeviceInfo) (fac : Except Nat Unit) :
    DropOutcome × List FacilityCall :=
  let r := destroy_device_info_list d.handle fac
  (DropOutcome.returned, r.2)

/-- Run n iterator steps, accumulating the facility-call trace. -/
def runIterSteps (fac : Nat → Except Nat SP_DEVINFO_DATA) (it : DeviceInfoIter) :
    Nat → DeviceInfoIter × List FacilityCall
  | 0 => (it, [])
  | n + 1 =>
    let r := it.next fac
    let rest := runIterSteps fac r.2.1 n
    (rest.1, r.2.2 ++ rest.2)

/-- A whole wrapper lifetime: wrap a raw handle, take an iterator, perform
n pulls through it, then drop the wrapper; the result is the full trace of
facility calls made on behalf of the wrapper. -/
def deviceInfoLifecycle (fac : Nat → Except Nat SP_DEVINFO_DATA)
    (destroyFac : Except Nat Unit) (h n : Nat) : List FacilityCall :=
  let d := DeviceInfo.new h
  let steps := runIterSteps fac d.device_iter n
  steps.2 ++ (d.drop destroyFac).2

/-- Oracle for one overlapped read or write call: the CreateEventW outcome
(a fresh event handle or an error code), the ReadFile or WriteFile outcome
(immediately transferred count, or an error code, where ERROR_IO_PENDING
means the operation is in flight), and the GetOverlappedResult outcome
after a blocking wait (final transferred count or an error code). -/
structure OverlappedFacility where
  createEvent : Except Nat Nat
  issue : Except Nat Nat
  overlappedResult : Except Nat Nat

/-- read_file: create a fresh event, issue ReadFile with the overlapped
structure; immediate completion returns the transferred count, a pending
status waits on GetOverlappedResult and returns its count, any other
status returns immediately.  The trace records every facility call; note
that no closeHandle call ever appears. -/
def read_file (handle : Nat) (f : OverlappedFacility) :
    Except IoError Nat × List FacilityCall :=
  match f.createEvent with
  | Except.error e => (Except.error (IoError.osError e), [])
  | Except.ok ev =>
    let calls := [FacilityCall.createEvent ev, FacilityCall.readFileIssue handle]
    match f.issue with
    | Except.ok ret => (Except.ok ret, calls)
    | Except.error e =>
      if e ≠ ERROR_IO_PENDING then (Except.error (IoError.osError e), calls)
      else
        match f.overlappedResult with
        | Except.ok ret =>
          (Except.ok ret, calls ++ [FacilityCall.getOverlappedResult handle])
        | Except.error e2 =>
          (Except.error (IoError.osError e2), calls ++ [FacilityCall.getOverlappedResult handle])

/-- write_file: same structure as read_file over WriteFile. -/
def write_file (handle : Nat) (f : OverlappedFacility) :
    Except IoError Nat × List FacilityCall :=
  match f.createEvent with
  | Except.error e => (Except.error (IoError.osError e), [])
  | Except.ok ev =>
    let calls := [FacilityCall.createEvent ev, FacilityCall.writeFileIssue handle]
    match f.issue with
    | Except.ok ret => (Except.ok ret, calls)
    | Except.error e =>
      if e ≠ ERROR_IO_PENDING then (Except.error (IoError.osError e), calls)
      else
        match f.overlappedResult with
        | Except.ok ret =>
          (Except.ok ret, calls ++ [FacilityCall.getOverlappedResult handle])
        | Except.error e2 =>
          (Except.error (IoError.osError e2), calls ++ [FacilityCall.getOverlappedResult handle])

/-- Oracle for notify_change_key_value: CreateEventW outcome, the
RegNotifyChangeKeyValue registration outcome, the WAIT_EVENT value
returned by WaitForSingleObject, and the GetLastError value read in the
catch-all arm. -/
structure NotifyFacility where
  createEvent : Except Nat Nat
  register : Except Nat Unit
  wait : Nat
  lastOsError : Nat

/-- notify_change_key_value: create an event, register for one change
notification, block on the event up to the timeout; WAIT_OBJECT_0 is
success, WAIT_TIMEOUT is the distinct timed-out error, anything else
surfaces the platform's last os error. -/
def notify_change_key_value (f : NotifyFacility) : Except IoError Unit :=
  match f.createEvent with
  | Except.error e => Except.error (IoError.osError e)
  | Except.ok _ =>
    match f.register with
    | Except.error e => Except.error (IoError.osError e)
    | Except.ok _ =>
      if f.wait = WAIT_OBJECT_0 then Except.ok ()
      else if f.wait = WAIT_TIMEOUT then
        Except.error (IoError.timedOut "Registry timed out")
      else Except.error (IoError.osError f.lastOsError)

/-- close_handle: the CloseHandle result is discarded by the semicolon
statement and Ok unit is returned unconditionally. -/
def close_handle (handle : Nat) (fac : Except Nat Unit) : Except IoError Unit :=
  let _ := handle
  let _ := fac
  Except.ok ()

/-- class_name_from_guid: a MAX_CLASS_NAME_LEN u16 zeroed buffer, one
SetupDiClassNameFromGuidW call whose failure propagates, then PCWSTR
decoding whose failure is the distinct decode error. -/
def class_name_from_guid (fac : Except Nat (List Nat)) : Except IoError String :=
  match fac with
  | Except.error e => Except.error (IoError.osError e)
  | Except.ok written => pcwstrDecode (fillWords MAX_CLASS_NAME_LEN written)

/-- luid_to_alias: a 257 u16 zeroed buffer, one ConvertInterfaceLuidToAlias
call whose failure propagates, then PCWSTR decoding. -/
def luid_to_alias (fac : Except Nat (List Nat)) : Except IoError String :=
  match fac with
  | Except.error e => Except.error (IoError.osError e)
  | Except.ok written => pcwstrDecode (fillWords 257 written)

/-- string_from_guid: a 64 u16 zeroed buffer, one StringFromGUID2 call (a
zero return surfaces the last os error), then PCWSTR decoding. -/
def string_from_guid (fac : Except Nat (List Nat)) : Except IoError String :=
  match fac with
  | Except.error e => Except.error (IoError.osError e)
  | Except.ok written => pcwstrDecode (fillWords 64 written)

/-! Helper lemmas about buffers and decoding. -/

theorem takeWhile_ne_zero_append (ws ys : List Nat) (h : 0 ∈ ws) :
    (ws ++ ys).takeWhile (fun w => w != 0) = ws.takeWhile (fun w => w != 0) := by
  induction ws with
  | nil => cases h
  | cons a t ih =>
    by_cases ha : a = 0
    · subst ha
      simp [List.takeWhile_cons]
    · have ht : 0 ∈ t := by
        rcases List.mem_cons.mp h with h0 | h0
        · exact absurd h0.symm ha
        · exact h0
      have hb : (a != 0) = true := by simpa using ha
      simp only [List.cons_append, List.takeWhile_cons, hb, if_true]
      rw [ih ht]

theorem bytesToWords_append : ∀ (xs ys : List Nat), xs.length % 2 = 0 →
    bytesToWords (xs ++ ys) = bytesToWords xs ++ bytesToWords ys
  | [], ys, _ => by simp [bytesToWords]
  | [x], ys, h => by simp at h
  | b0 :: b1 :: rest, ys, h => by
    simp only [List.cons_append, bytesToWords, List.append_eq]
    rw [bytesToWords_append rest ys (by simp at h; omega)]

theorem pcwstrDecode_append_null (ws ys : List Nat) (h : 0 ∈ ws) :
    pcwstrDecode (ws ++ ys) = pcwstrDecode ws := by
  unfold pcwstrDecode
  rw [takeWhile_ne_zero_append ws ys h]

theorem fillBytes_eq_append (cap : Nat) (data : List Nat) (h : data.length ≤ cap) :
    fillBytes cap data = data ++ List.replicate (cap - data.length) 0 := by
  unfold fillBytes
  rw [List.take_of_length_le h]

theorem regBufferDecode (cap : Nat) (data : List Nat) (cs : List Char)
    (hlen : data.length ≤ cap) (heven : data.length % 2 = 0)
    (hnull : 0 ∈ bytesToWords data)
    (hdecode : utf16Decode ((bytesToWords data).takeWhile (fun w => w != 0)) = some cs) :
    pcwstrDecode (bytesToWords (fillBytes cap data)) = Except.ok (String.mk cs) := by
  rw [fillBytes_eq_append cap data hlen, bytesToWords_append data _ heven,
    pcwstrDecode_append_null _ _ hnull]
  unfold pcwstrDecode
  rw [hdecode]

/-! Claim theorems. -/

/-- C1: an insufficient-buffer status from the first, null-buffer probe
call of get_device_registry_property is absorbed and the function proceeds
to the sized fetch phase; any other first-call error is returned
immediately; any error from the second, sized fetch call is returned
immediately. -/
theorem c1_probe_error_policy (f : RegPropFacility) :
    (f.probe = Except.error ERROR_INSUFFICIENT_BUFFER →
      get_device_registry_property f = regPropertyFetch f) ∧
    (∀ e, f.probe = Except.error e → e ≠ ERROR_INSUFFICIENT_BUFFER →
      get_device_registry_property f = Except.error (IoError.osError e)) ∧
    (∀ e, (f.probe = Except.ok () ∨ f.probe = Except.error ERROR_INSUFFICIENT_BUFFER) →
      f.fetch f.requiredSize = Except.error e →
      get_device_registry_property f = Except.error (IoError.osError e)) := by
  refine ⟨?_, ?_, ?_⟩
  · intro h
    simp [get_device_registry_property, h]
  · intro e he hne
    simp [get_device_registry_property, he, hne]
  · intro e hp hf
    rcases hp with hp | hp <;>
      simp [get_device_registry_property, regPropertyFetch, hp, hf]

def regPropFacC1a : RegPropFacility :=
  { requiredSize := 4, probe := Except.error 5, fetch := fun _ => Except.error 2 }

def regPropFacC1b : RegPropFacility :=
  { requiredSize := 4, probe := Except.error ERROR_INSUFFICIENT_BUFFER,
    fetch := fun _ => Except.error 2 }

/-- Witness for c1_probe_error_policy: a non-buffer first-call error 5 is
surfaced, and with an absorbed first-call probe a fetch error 2 is
surfaced. -/
theorem c1_probe_error_policy_witness :
    ((5 : Nat) ≠ ERROR_INSUFFICIENT_BUFFER ∧
      get_device_registry_property regPropFacC1a = Except.error (IoError.osError 5)) ∧
    get_device_registry_property regPropFacC1b = Except.error (IoError.osError 2) :=
  ⟨⟨by decide, (c1_probe_error_policy regPropFacC1a).2.1 5 rfl (by decide)⟩,
    (c1_probe_error_policy regPropFacC1b).2.2 2 (Or.inr rfl) rfl⟩

/-- C2: on the success path get_device_registry_property fetches into a
buffer of exactly the probe-reported byte size and returns the full text
decoded up to the null terminator, with no truncation; the decoded result
is the same for every buffer capacity at least the data size, so it does
not depend on the allocated capacity beyond sufficiency. -/
theorem c2_exact_size_no_truncation (f : RegPropFacility) (data : List Nat) (cs : List Char)
    (hprobe : f.probe = Except.ok () ∨ f.probe = Except.error ERROR_INSUFFICIENT_BUFFER)
    (hfetch : f.fetch f.requiredSize = Except.ok data)
    (hlen : data.length ≤ f.requiredSize)
    (heven : data.length % 2 = 0)
    (hnull : 0 ∈ bytesToWords data)
    (hdecode : utf16Decode ((bytesToWords data).takeWhile (fun w => w != 0)) = some cs) :
    get_device_registry_property f = Except.ok (String.mk cs) ∧
    (∀ cap, data.length ≤ cap →
      pcwstrDecode (bytesToWords (fillBytes cap data)) = Except.ok (String.mk cs)) := by
  have hcap : ∀ cap, data.length ≤ cap →
      pcwstrDecode (bytesToWords (fillBytes cap data)) = Except.ok (String.mk cs) :=
    fun cap hc => regBufferDecode cap data cs hc heven hnull hdecode
  refine ⟨?_, hcap⟩
  have hfetchPhase : regPropertyFetch f = Except.ok (String.mk cs) := by
    unfold regPropertyFetch
    rw [hfetch]
    exact hcap f.requiredSize hlen
  rcases hprobe with hp | hp <;> simp [get_device_registry_property, hp, hfetchPhase]

def regPropFacC2 : RegPropFacility :=
  { requiredSize := 8, probe := Except.error ERROR_INSUFFICIENT_BUFFER,
    fetch := fun _ => Except.ok [72, 0, 105, 0, 0, 0] }

/-- Witness for c2_exact_size_no_truncation: a 6-byte property fetched
through an 8-byte probe size decodes to the full two-character text at
every sufficient capacity. -/
theorem c2_exact_size_no_truncation_witness :
    get_device_registry_property regPropFacC2 = Except.ok (String.mk ['H', 'i']) ∧
    (∀ cap, (List.length [72, 0, 105, 0, 0, 0]) ≤ cap →
      pcwstrDecode (bytesToWords (fillBytes cap [72, 0, 105, 0, 0, 0])) =
        Except.ok (String.mk ['H', 'i'])) :=
  c2_exact_size_no_truncation regPropFacC2 [72, 0, 105, 0, 0, 0] ['H', 'i']
    (Or.inr rfl) rfl (by decide) (by decide) (by decide) (by decide)

/-- C3: for every enumeration pull at any index, enum_device_info and
enum_driver_info map the no-more-items status to end of sequence (None,
not an error), map a successful call to the produced record, map every
other facility failure to an error item for that one pull, and make
exactly one facility call at the requested index, so nothing is retried
internally. -/
theorem c3_enum_outcome_mapping (dfac : Nat → Except Nat SP_DEVINFO_DATA)
    (rfac : Nat → Except Nat SP_DRVINFO_DATA_V2_W) (devinfo driver_type idx : Nat) :
    ((dfac idx = Except.error ERROR_NO_MORE_ITEMS →
        (enum_device_info dfac devinfo idx).1 = none) ∧
      (∀ d, dfac idx = Except.ok d →
        (enum_device_info dfac devinfo idx).1 = some (Except.ok d)) ∧
      (∀ e, dfac idx = Except.error e → e ≠ ERROR_NO_MORE_ITEMS →
        (enum_device_info dfac devinfo idx).1 = some (Except.error (IoError.osError e))) ∧
      (enum_device_info dfac devinfo idx).2 = [FacilityCall.enumDeviceInfo devinfo idx]) ∧
    ((rfac idx = Except.error ERROR_NO_MORE_ITEMS →
        (enum_driver_info rfac devinfo driver_type idx).1 = none) ∧
      (∀ d, rfac idx = Except.ok d →
        (enum_driver_info rfac devinfo driver_type idx).1 = some (Except.ok d)) ∧
      (∀ e, rfac idx = Except.error e → e ≠ ERROR_NO_MORE_ITEMS →
        (enum_driver_info rfac devinfo driver_type idx).1 =
          some (Except.error (IoError.osError e))) ∧
      (enum_driver_info rfac devinfo driver_type idx).2 =
        [FacilityCall.enumDriverInfo devinfo driver_type idx]) := by
  constructor
  · refine ⟨?_, ?_, ?_, ?_⟩
    · intro h
      simp [enum_device_info, h]
    · intro d h
      simp [enum_device_info, h]
    · intro e h hne
      simp [enum_device_info, h, hne]
    · unfold enum_device_info
      cases h : dfac idx with
      | ok d => simp
      | error e => by_cases he : e = ERROR_NO_MORE_ITEMS <;> simp [he]
  · refine ⟨?_, ?_, ?_, ?_⟩
    · intro h
      simp [enum_driver_info, h]
    · intro d h
      simp [enum_driver_info, h]
    · intro e h hne
      simp [enum_driver_info, h, hne]
    · unfold enum_driver_info
      cases h : rfac idx with
      | ok d => simp
      | error e => by_cases he : e = ERROR_NO_MORE_ITEMS <;> simp [he]

def enumDevFacC3 : Nat → Except Nat SP_DEVINFO_DATA :=
  fun i =>
    if i = 0 then Except.ok { cbSize := 32, ClassGuid := 1, DevInst := 2, Reserved := 0 }
    else Except.error ERROR_NO_MORE_ITEMS

def enumDrvFacC3 : Nat → Except Nat SP_DRVINFO_DATA_V2_W :=
  fun _ => Except.error 5

/-- Witness for c3_enum_outcome_mapping: the sentinel at index 1 ends the
device sequence, and a non-sentinel code 5 surfaces as an error item on a
driver pull. -/
theorem c3_enum_outcome_mapping_witness :
    (enum_device_info enumDevFacC3 7 1).1 = none ∧
    (enum_driver_info enumDrvFacC3 7 3 1).1 = some (Except.error (IoError.osError 5)) :=
  ⟨(c3_enum_outcome_mapping enumDevFacC3 enumDrvFacC3 7 3 1).1.1 rfl,
    (c3_enum_outcome_mapping enumDevFacC3 enumDrvFacC3 7 3 1).2.2.2.1 5 rfl (by decide)⟩

/-- C4: with the event created, read_file and write_file return the
transferred count on immediate completion; on an operation-pending status
they return the count retrieved from the blocking overlapped-completion
call, or that call's error; any other issue error is returned
immediately.  Every path thus ends with a completed or failed transfer. -/
theorem c4_overlapped_io_outcomes (handle : Nat) (f : OverlappedFacility) (ev : Nat)
    (hev : f.createEvent = Except.ok ev) :
    (∀ n, f.issue = Except.ok n →
      (read_file handle f).1 = Except.ok n ∧ (write_file handle f).1 = Except.ok n) ∧
    (f.issue = Except.error ERROR_IO_PENDING →
      (∀ n, f.overlappedResult = Except.ok n →
        (read_file handle f).1 = Except.ok n ∧ (write_file handle f).1 = Except.ok n) ∧
      (∀ e, f.overlappedResult = Except.error e →
        (read_file handle f).1 = Except.error (IoError.osError e) ∧
        (write_file handle f).1 = Except.error (IoError.osError e))) ∧
    (∀ e, f.issue = Except.error e → e ≠ ERROR_IO_PENDING →
      (read_file handle f).1 = Except.error (IoError.osError e) ∧
      (write_file handle f).1 = Except.error (IoError.osError e)) := by
  refine ⟨?_, ?_, ?_⟩
  · intro n h
    constructor <;> simp [read_file, write_file, hev, h]
  · intro hp
    refine ⟨?_, ?_⟩
    · intro n hov
      constructor <;> simp [read_file, write_file, hev, hp, hov]
    · intro e hov
      constructor <;> simp [read_file, write_file, hev, hp, hov]
  · intro e h hne
    constructor <;> simp [read_file, write_file, hev, h, hne]

def ovlFacC4a : OverlappedFacility :=
  { createEvent := Except.ok 11, issue := Except.ok 5, overlappedResult := Except.error 9 }

def ovlFacC4b : OverlappedFacility :=
  { createEvent := Except.ok 12, issue := Except.error ERROR_IO_PENDING,
    overlappedResult := Except.ok 7 }

/-- Witness for c4_overlapped_io_outcomes: an immediate completion of 5
bytes and a pending-then-signaled completion of 7 bytes. -/
theorem c4_overlapped_io_outcomes_witness :
    ((read_file 3 ovlFacC4a).1 = Except.ok 5 ∧ (write_file 3 ovlFacC4a).1 = Except.ok 5) ∧
    ((read_file 3 ovlFacC4b).1 = Except.ok 7 ∧ (write_file 3 ovlFacC4b).1 = Except.ok 7) :=
  ⟨(c4_overlapped_io_outcomes 3 ovlFacC4a 11 rfl).1 5 rfl,
    ((c4_overlapped_io_outcomes 3 ovlFacC4b 12 rfl).2.1 rfl).1 7 rfl⟩

/-- C5: notify_change_key_value has exactly three outcomes: the change is
observed before the timeout and Ok is returned; the timeout elapses and a
distinct, named timed-out error is returned, distinguishable from every
facility error and decode error by constructor; any other registration or
wait failure surfaces the platform's underlying error. -/
theorem c5_notify_three_outcomes (f : NotifyFacility) :
    (∀ ev, f.createEvent = Except.ok ev →
      ((∀ e, f.register = Except.error e →
          notify_change_key_value f = Except.error (IoError.osError e)) ∧
        (f.register = Except.ok () →
          (f.wait = WAIT_OBJECT_0 → notify_change_key_value f = Except.ok ()) ∧
          (f.wait = WAIT_TIMEOUT →
            notify_change_key_value f = Except.error (IoError.timedOut "Registry timed out")) ∧
          (f.wait ≠ WAIT_OBJECT_0 → f.wait ≠ WAIT_TIMEOUT →
            notify_change_key_value f = Except.error (IoError.osError f.lastOsError))))) ∧
    (∀ m c, IoError.timedOut m ≠ IoError.osError c) ∧
    (∀ m m2, IoError.timedOut m ≠ IoError.decodeError m2) := by
  refine ⟨?_, ?_, ?_⟩
  · intro ev hev
    refine ⟨?_, ?_⟩
    · intro e hr
      simp [notify_change_key_value, hev, hr]
    · intro hr
      refine ⟨?_, ?_, ?_⟩
      · intro hw
        simp [notify_change_key_value, hev, hr, hw]
      · intro hw
        simp [notify_change_key_value, hev, hr, hw, WAIT_TIMEOUT, WAIT_OBJECT_0]
      · intro hw1 hw2
        simp [notify_change_key_value, hev, hr, hw1, hw2]
  · intro m c h
    cases h
  · intro m m2 h
    cases h

def notifyFacC5 : NotifyFacility :=
  { createEvent := Except.ok 1, register := Except.ok (), wait := WAIT_TIMEOUT,
    lastOsError := 0 }

/-- Witness for c5_notify_three_outcomes: a wait that times out yields the
named timed-out error, which differs from the os error with code 0. -/
theorem c5_notify_three_outcomes_witness :
    notify_change_key_value notifyFacC5 = Except.error (IoError.timedOut "Registry timed out") ∧
    IoError.timedOut "Registry timed out" ≠ IoError.osError 0 :=
  ⟨((((c5_notify_three_outcomes notifyFacC5).1 1 rfl).2 rfl).2.1) rfl,
    (c5_notify_three_outcomes notifyFacC5).2.1 "Registry timed out" 0⟩

theorem isDestroy_enum (a b : Nat) :
    isDestroyDeviceInfoList (FacilityCall.enumDeviceInfo a b) = false := rfl

theorem isDestroy_destroy (a : Nat) :
    isDestroyDeviceInfoList (FacilityCall.destroyDeviceInfoList a) = true := rfl

theorem enum_device_info_trace (fac : Nat → Except Nat SP_DEVINFO_DATA) (devinfo idx : Nat) :
    (enum_device_info fac devinfo idx).2 = [FacilityCall.enumDeviceInfo devinfo idx] := by
  unfold enum_device_info
  cases h : fac idx with
  | ok d => rfl
  | error e => by_cases he : e = ERROR_NO_MORE_ITEMS <;> simp [he]

theorem DeviceInfoIter_next_trace (it : DeviceInfoIter) (fac : Nat → Except Nat SP_DEVINFO_DATA) :
    (it.next fac).2.2 = [FacilityCall.enumDeviceInfo it.handle it.current] := by
  unfold DeviceInfoIter.next
  simp [enum_device_info_trace]

theorem runIterSteps_no_destroy (fac : Nat → Except Nat SP_DEVINFO_DATA) (n : Nat) :
    ∀ it, ((runIterSteps fac it n).2).countP isDestroyDeviceInfoList = 0 := by
  induction n with
  | zero =>
    intro it
    simp [runIterSteps]
  | succ n ih =>
    intro it
    simp only [runIterSteps, List.countP_append]
    rw [DeviceInfoIter_next_trace, ih]
    simp [List.countP_cons, isDestroy_enum]

theorem runIterSteps_current (fac : Nat → Except Nat SP_DEVINFO_DATA) (n : Nat) :
    ∀ it, ((runIterSteps fac it n).1).current = it.current + n := by
  induction n with
  | zero =>
    intro it
    simp [runIterSteps]
  | succ n ih =>
    intro it
    simp only [runIterSteps]
    rw [ih]
    simp [DeviceInfoIter.next]
    omega

/-- C6: over a whole wrapper lifetime with any number n of iterator pulls,
exactly one destroy call for the wrapped device-info-set handle is made,
and the drop itself consists of exactly that one release call and returns
normally for every outcome of the release, so a release failure neither
propagates an error nor panics. -/
theorem c6_drop_releases_exactly_once (fac : Nat → Except Nat SP_DEVINFO_DATA)
    (destroyFac : Except Nat Unit) (h n : Nat) :
    (deviceInfoLifecycle fac destroyFac h n).countP isDestroyDeviceInfoList = 1 ∧
    (DeviceInfo.new h |>.drop destroyFac) =
      (DropOutcome.returned, [FacilityCall.destroyDeviceInfoList h]) := by
  constructor
  · unfold deviceInfoLifecycle
    simp only [List.countP_append]
    rw [runIterSteps_no_destroy]
    simp [DeviceInfo.drop, destroy_device_info_list, DeviceInfo.new, List.countP_cons,
      isDestroy_destroy]
  · rfl

/-- C7: each DeviceInfoIter pull performs exactly one index-based
enumeration call at the current cursor value, yields exactly what that
one call mapped to, and increments the cursor by one regardless of the
outcome; a newly constructed iterator starts at cursor 0; after n pulls
the cursor has advanced by exactly n, so it never decreases. -/
theorem c7_iterator_cursor_discipline (fac : Nat → Except Nat SP_DEVINFO_DATA)
    (it : DeviceInfoIter) (handle n : Nat) :
    (it.next fac).2.2 = [FacilityCall.enumDeviceInfo it.handle it.current] ∧
    (it.next fac).1 = (enum_device_info fac it.handle it.current).1 ∧
    ((it.next fac).2.1).current = it.current + 1 ∧
    ((it.next fac).2.1).handle = it.handle ∧
    (DeviceInfoIter.new handle).current = 0 ∧
    ((runIterSteps fac it n).1).current = it.current + n ∧
    it.current ≤ ((runIterSteps fac it n).1).current := by
  refine ⟨DeviceInfoIter_next_trace it fac, rfl, rfl, rfl, rfl,
    runIterSteps_current fac n it, ?_⟩
  rw [runIterSteps_current fac n it]
  omega

/-- C8: in every variable-length text read the final decoding failure is
reported as the decode error, whose constructor differs from every
facility (os) error, while a facility failure carries its platform code;
shown for class_name_from_guid, luid_to_alias, string_from_guid and
get_device_registry_property. -/
theorem c8_decode_error_distinct :
    (∀ m c, IoError.decodeError m ≠ IoError.osError c) ∧
    (∀ fac ws, fac = Except.ok ws →
      utf16Decode ((fillWords MAX_CLASS_NAME_LEN ws).takeWhile (fun w => w != 0)) = none →
      class_name_from_guid fac = Except.error (IoError.decodeError "invalid utf-16")) ∧
    (∀ fac e, fac = Except.error e →
      class_name_from_guid fac = Except.error (IoError.osError e)) ∧
    (∀ fac ws, fac = Except.ok ws →
      utf16Decode ((fillWords 257 ws).takeWhile (fun w => w != 0)) = none →
      luid_to_alias fac = Except.error (IoError.decodeError "invalid utf-16")) ∧
    (∀ fac e, fac = Except.error e →
      luid_to_alias fac = Except.error (IoError.osError e)) ∧
    (∀ fac ws, fac = Except.ok ws →
      utf16Decode ((fillWords 64 ws).takeWhile (fun w => w != 0)) = none →
      string_from_guid fac = Except.error (IoError.decodeError "invalid utf-16")) ∧
    (∀ fac e, fac = Except.error e →
      string_from_guid fac = Except.error (IoError.osError e)) ∧
    (∀ (f : RegPropFacility) data,
      (f.probe = Except.ok () ∨ f.probe = Except.error ERROR_INSUFFICIENT_BUFFER) →
      f.fetch f.requiredSize = Except.ok data →
      utf16Decode
        ((bytesToWords (fillBytes f.requiredSize data)).takeWhile (fun w => w != 0)) = none →
      get_device_registry_property f = Except.error (IoError.decodeError "invalid utf-16")) := by
  refine ⟨?_, ?_, ?_, ?_, ?_, ?_, ?_, ?_⟩
  · intro m c hmc
    cases hmc
  · intro fac ws hok hdec
    subst hok
    simp [class_name_from_guid, pcwstrDecode, hdec]
  · intro fac e he
    subst he
    simp [class_name_from_guid]
  · intro fac ws hok hdec
    subst hok
    simp [luid_to_alias, pcwstrDecode, hdec]
  · intro fac e he
    subst he
    simp [luid_to_alias]
  · intro fac ws hok hdec
    subst hok
    simp [string_from_guid, pcwstrDecode, hdec]
  · intro fac e he
    subst he
    simp [string_from_guid]
  · intro f data hp hf hdec
    rcases hp with hp | hp <;>
      simp [get_device_registry_property, regPropertyFetch, hp, hf, pcwstrDecode, hdec]

/-- Witness for c8_decode_error_distinct: a lone high surrogate written by
the facility yields the decode error, and a facility failure with code 3
yields the os error with that code. -/
theorem c8_decode_error_distinct_witness :
    class_name_from_guid (Except.ok [0xD800]) =
      Except.error (IoError.decodeError "invalid utf-16") ∧
    luid_to_alias (Except.error 3) = Except.error (IoError.osError 3) :=
  ⟨c8_decode_error_distinct.2.1 (Except.ok [0xD800]) [0xD800] rfl (by decide),
    c8_decode_error_distinct.2.2.2.2.1 (Except.error 3) 3 rfl⟩

def ovlFacC9 : OverlappedFacility :=
  { createEvent := Except.ok 42, issue := Except.ok 3, overlappedResult := Except.ok 0 }

/-- C9: the event is created inside the call (exactly one creation per
call) and only a byte count is returned, but the trace of read_file and
write_file never contains a closeHandle call: at the concrete input the
event with handle 42 is created and never closed, and in general no call
path of read_file or write_file closes any handle, so the event object is
still live when the call returns, contradicting the claim. -/
theorem c9_event_leak :
    ((read_file 7 ovlFacC9).2.countP isCreateEvent = 1 ∧
      (read_file 7 ovlFacC9).2.countP isCloseHandle = 0 ∧
      FacilityCall.createEvent 42 ∈ (read_file 7 ovlFacC9).2 ∧
      (read_file 7 ovlFacC9).1 = Except.ok 3) ∧
    ((write_file 7 ovlFacC9).2.countP isCreateEvent = 1 ∧
      (write_file 7 ovlFacC9).2.countP isCloseHandle = 0 ∧
      (write_file 7 ovlFacC9).1 = Except.ok 3) ∧
    (∀ handle f, (read_file handle f).2.countP isCloseHandle = 0 ∧
      (write_file handle f).2.countP isCloseHandle = 0) := by
  refine ⟨by refine ⟨rfl, rfl, ?_, rfl⟩; simp [read_file, ovlFacC9], ⟨rfl, rfl, rfl⟩, ?_⟩
  intro handle f
  constructor <;>
    · first
      | unfold read_file
      | unfold write_file
      cases f.createEvent with
      | error e => rfl
      | ok ev =>
        cases f.issue with
        | ok ret => rfl
        | error e =>
          by_cases he : e = ERROR_IO_PENDING
          · simp only [he]
            cases f.overlappedResult with
            | ok ret => simp [List.countP_append, List.countP_cons, isCloseHandle]
            | error e2 => simp [List.countP_append, List.countP_cons, isCloseHandle]
          · simp [he, List.countP_cons, isCloseHandle]

/-- C10: close_handle returns Ok unit whatever the underlying CloseHandle
outcome was; the outcome is discarded, so a failed close and a successful
close are indistinguishable at this interface. -/
theorem c10_close_handle_discards (handle : Nat) (fac fac2 : Except Nat Unit) :
    close_handle handle fac = Except.ok () ∧
    close_handle handle fac = close_handle handle fac2 :=
  ⟨rfl, rfl⟩
